import Mathlib

/-!
Shallow embedding of `scripts/mybgg/bgg_client.py` (the mybgg BGG API
client): vote aggregation for suggested player counts, the
suggested-player-count post-processing, request/retry execution, the
game-list batching, and the collection extraction.
-/

namespace BggClient

/-- One `<result>` element inside a `<results>` player-count group:
`{"value": ..., "numvotes": ...}` as parsed by the declxml processor
(`xml.string` for `value`, `xml.integer` for `numvotes`). -/
structure VoteResult where
  value : String
  numvotes : Int
deriving Repr, DecidableEq

/-- ASCII case of Python `str.lower()` on one character (the vote values
appearing in the API are ASCII: "Best", "Recommended", "Not Recommended"). -/
def pyLower (c : Char) : Char :=
  if 'A' ≤ c ∧ c ≤ 'Z' then Char.ofNat (c.toNat + 32) else c

/-- Python `value.lower().replace(" ", "_")` used to key the vote map;
replacing the single character " " by "_" is a character-wise map. -/
def normalizeValue (s : String) : String :=
  String.mk (s.data.map (fun c => if pyLower c = ' ' then '_' else pyLower c))

/-- The vote map built by the dict comprehension
`{result["value"].lower().replace(" ", "_"): int(result["numvotes"]) ...}`,
represented as the list of (key, value) pairs in comprehension order.
Python dict semantics: a later duplicate key overrides an earlier one. -/
def voteMap (results : List VoteResult) : List (String × Int) :=
  results.map (fun r => (normalizeValue r.value, r.numvotes))

/-- Python dict read `m[k]`: the value of the LAST binding of `k`
(later assignments override earlier ones); `none` models a `KeyError`. -/
def dictGet (m : List (String × Int)) (k : String) : Option Int :=
  (m.reverse.find? (fun p => p.1 == k)).map (fun p => p.2)

/-- The vote map after the `if not result:` default step of
`numplayers_to_result`: only a completely empty map is replaced by
`{'best': 0, 'recommended': 0, 'not_recommended': 0}`. -/
def collectedVotes (results : List VoteResult) : List (String × Int) :=
  let m := voteMap results
  if m.isEmpty then [("best", 0), ("recommended", 0), ("not_recommended", 0)] else m

/-- `numplayers_to_result` (bgg_client.py lines 117-131): classify one
player-count group from its votes. `none` models the `KeyError` raised
when one of the three category keys is absent from a non-empty map. -/
def numplayers_to_result (results : List VoteResult) : Option String := do
  let m := collectedVotes results
  let best ← dictGet m "best"
  let recommended ← dictGet m "recommended"
  let notRecommended ← dictGet m "not_recommended"
  let isRecommended := best + recommended > notRecommended
  if ¬ isRecommended then
    return "not_recommended"
  let isBest := best > 10 ∧ best > recommended
  if isBest then
    return "best"
  return "recommended"

/-- One player-count group after the inner hook ran: the parsed
`numplayers` attribute and the classification string computed by
`numplayers_to_result` (stored under the key `"result"`). -/
structure PlayersGroup where
  numplayers : String
  result : String
deriving Repr, DecidableEq

/-- The `if len(numplayers) == 1: numplayers[0]["result"] = "best"`
step of `suggested_numplayers`: a list of length exactly 1 has its sole
element's result overwritten with "best". -/
def promoteSoleSurvivor : List PlayersGroup → List PlayersGroup
  | [p] => [{ p with result := "best" }]
  | l => l

/-- `suggested_numplayers` (bgg_client.py lines 133-145): drop the
`not_recommended` groups, promote a unique survivor to `best`, and
return the (numplayers, result) pairs. -/
def suggested_numplayers (numplayers : List PlayersGroup) : List (String × String) :=
  let survivors := numplayers.filter (fun p => p.result ≠ "not_recommended")
  let survivors := promoteSoleSurvivor survivors
  survivors.map (fun p => (p.numplayers, p.result))

/-- A minimal model of an `xml.etree.ElementTree` element as produced
by `fromstring`: tag, attributes, the `.text` field (text before the
first child) and the child elements. -/
inductive XmlNode where
  | elem (tag : String) (attrs : List (String × String)) (text : Option String)
      (children : List XmlNode)
deriving Repr

def XmlNode.tag : XmlNode → String
  | .elem t _ _ _ => t

def XmlNode.attrsOf : XmlNode → List (String × String)
  | .elem _ a _ _ => a

def XmlNode.text : XmlNode → Option String
  | .elem _ _ t _ => t

def XmlNode.children : XmlNode → List XmlNode
  | .elem _ _ _ cs => cs

/-- All text nodes of a forest of elements; every text node is a leaf
of the DOM tree, so these are the leaf text nodes of the documents. -/
def leafTextsList : List XmlNode → List String
  | [] => []
  | .elem _ _ t cs :: rest => t.toList ++ leafTextsList cs ++ leafTextsList rest

/-- The leaf text nodes of one document. -/
def XmlNode.leafTexts (n : XmlNode) : List String :=
  leafTextsList [n]

/-- What the error branch of `_make_request` actually collects:
`[subnode.text for node in tree for subnode in node]`, i.e. the `.text`
of the grandchildren of the root, in document order. -/
def errorTexts (root : XmlNode) : List (Option String) :=
  (root.children.map (fun node => node.children.map XmlNode.text)).flatten

/-- Python `repr` of an optional string (no quote or escape characters
inside the modelled texts): `None` or `'s'`. -/
def pyRepr : Option String → String
  | none => "None"
  | some s => "\x27" ++ s ++ "\x27"

/-- Python's ", "-join used by `str` on a list. -/
def pyJoinComma : List String → String
  | [] => ""
  | [x] => x
  | x :: y :: xs => x ++ ", " ++ pyJoinComma (y :: xs)

/-- Python `str` of a list of optional strings. -/
def pyStrList (l : List (Option String)) : String :=
  "[" ++ pyJoinComma (l.map pyRepr) ++ "]"

/-- The single exception class `BGGException(Exception)` of
bgg_client.py: every failure raised by `_make_request` is a value of
this one class, carrying only a message. -/
structure BGGException where
  message : String
deriving Repr, DecidableEq

def connErrorMessage : String :=
  "BGG API closed the connection prematurely, please try again..."

def statusErrorMessage (status : Nat) (url : String) : String :=
  "BGG returned status code " ++ toString status ++ " when requesting " ++ url

def apiErrorMessage (url : String) (tree : XmlNode) : String :=
  "BGG returned errors while requesting " ++ url ++ " - " ++
    pyStrList (errorTexts tree)

/-- The outcome of one HTTP attempt: a connection error, or a response
with its status code, effective URL, raw text and parsed XML tree. -/
inductive Attempt where
  | connError
  | resp (status : Nat) (url : String) (text : String) (tree : XmlNode)

/-- `BGGClient._make_request` (bgg_client.py lines 47-87), with the
outcome of the i-th attempt given by `responses i` and the `tries`
counter as in the source. Returns the result (body text or the raised
`BGGException`) together with the number of attempts performed. -/
def makeRequest (responses : Nat → Attempt) (tries : Nat) :
    Except BGGException String × Nat :=
  match responses tries with
  | .connError =>
      if h : tries < 3 then
        let r := makeRequest responses (tries + 1)
        (r.1, r.2 + 1)
      else
        (.error ⟨connErrorMessage⟩, 1)
  | .resp status url text tree =>
      if status ≠ 200 then
        if h : status = 202 ∧ tries < 10 then
          let r := makeRequest responses (tries + 1)
          (r.1, r.2 + 1)
        else if h2 : status = 540 ∧ tries < 3 then
          let r := makeRequest responses (tries + 1)
          (r.1, r.2 + 1)
        else
          (.error ⟨statusErrorMessage status url⟩, 1)
      else
        if tree.tag = "errors" then
          (.error ⟨apiErrorMessage url tree⟩, 1)
        else
          (.ok text, 1)
termination_by 10 - tries
decreasing_by all_goals omega

/-- Whether one attempt's outcome lets `_make_request` return normally:
a 200 response whose parsed root tag is not "errors". -/
def attemptOk : Attempt → Bool
  | .connError => false
  | .resp status _ _ tree => status == 200 && tree.tag != "errors"

/-- The spec's four failure outcomes. -/
inductive FailureKind where
  | transportError
  | httpError
  | apiError
  | parseError
deriving DecidableEq, Repr

/-- The Python exception class raised for each failure kind: the raise
sites at lines 56, 75 and 82 of bgg_client.py all construct the single
class `BGGException`. Modelled from the spec: parse failures
(`ParseError`) are raised by the declxml XML-mapping library, which is
outside src/; its exception class is distinct from `BGGException`. -/
def raisedExceptionClass : FailureKind → String
  | .transportError => "BGGException"
  | .httpError => "BGGException"
  | .apiError => "BGGException"
  | .parseError => "declxml.XmlError"

/-- The `chunks(l, n)` generator of `game_list`, at its only call site
`n = 100`: `l[i:i+n]` slices for `i = 0, 100, 200, ...`. -/
def chunks100 {α : Type} : List α → List (List α)
  | [] => []
  | x :: xs => ((x :: xs).take 100) :: chunks100 ((x :: xs).drop 100)
termination_by l => l.length
decreasing_by simp; omega

/-- `BGGClient.game_list` (bgg_client.py lines 30-45), with the network
fetch + parse of one chunk abstracted as `fetchParse` (the composition
of `_make_request` and `_games_list_to_games` on the chunk's URL).
Returns the accumulated games and the number of requests issued. -/
def game_list {γ : Type} (fetchParse : List Int → List γ)
    (game_ids : List Int) : List γ × Nat :=
  if game_ids = [] then ([], 0)
  else
    (chunks100 game_ids).foldl
      (fun acc c => (acc.1 ++ fetchParse c, acc.2 + 1)) ([], 0)

/-- `element.get(attribute)` of ElementTree: first binding of the
attribute name. -/
def XmlNode.attr (n : XmlNode) (k : String) : Option String :=
  (n.attrsOf.find? (fun p => p.1 == k)).map (fun p => p.2)

/-- The first child element with the given tag (declxml element
lookup). -/
def XmlNode.firstChild (n : XmlNode) (tagName : String) : Option XmlNode :=
  n.children.find? (fun c => c.tag == tagName)

/-- The fixed status attribute set of the collection processor
(bgg_client.py lines 99-106), in processor (= dict insertion) order. -/
def statusAttrNames : List String :=
  ["fortrade", "own", "preordered", "prevowned", "want", "wanttobuy",
   "wanttoplay", "wishlist"]

/-- The parsed `status` dictionary handed to `after_status_hook`.
Modelled from the spec: the declxml primitive extraction itself is in
the vendored declxml library, outside src/; §4.2 reads the tags off the
fixed attribute set by comparing each value with "1", so an absent
attribute is represented by its default "" (which never equals "1"). -/
def statusDict (st : XmlNode) : List (String × String) :=
  statusAttrNames.map (fun k => (k, (st.attr k).getD ""))

/-- `after_status_hook` (bgg_client.py lines 90-91):
`[tag for tag, value in status.items() if value == "1"]`. -/
def after_status_hook (status : List (String × String)) : List String :=
  (status.filter (fun p => p.2 == "1")).map (fun p => p.1)

/-- One owned-game record of the collection extractor. -/
structure OwnedGame where
  id : Int
  name : String
  tags : List String
  numplays : Int
deriving Repr, DecidableEq

/-- A decimal digit's value. -/
def digitVal (c : Char) : Option Nat :=
  if '0' ≤ c ∧ c ≤ '9' then some (c.toNat - '0'.toNat) else none

/-- Digit-list accumulator for `pyInt`; `none` when no digit has been
seen or a non-digit occurs. -/
def parseDigits : List Char → Option Nat → Option Nat
  | [], acc => acc
  | c :: cs, acc =>
    match digitVal c with
    | some d => parseDigits cs (some ((acc.getD 0) * 10 + d))
    | none => none

/-- Python `int(s)` on the plain decimal forms appearing in the API
(optional leading minus, digits); anything else is a `ValueError`
(`none`). -/
def pyInt (s : String) : Option Int :=
  match s.data with
  | '-' :: rest => (parseDigits rest none).map (fun n => -(n : Int))
  | l => (parseDigits l none).map (fun n => (n : Int))

/-- Extraction of one `item` element of a collection document, after
the declxml processor of `_collection_to_games` (bgg_client.py lines
93-111): objectid attribute as integer, name text, the status hook's
tags, numplays as integer. Missing required parts and malformed
integers are `ParseError`s. -/
def parseItem (item : XmlNode) : Except String OwnedGame := do
  let idStr ← match item.attr "objectid" with
    | some s => Except.ok s
    | none => Except.error "ParseError: missing objectid"
  let id ← match pyInt idStr with
    | some n => Except.ok n
    | none => Except.error "ParseError: invalid objectid"
  let nameNode ← match item.firstChild "name" with
    | some n => Except.ok n
    | none => Except.error "ParseError: missing name"
  let name := (nameNode.text).getD ""
  let stNode ← match item.firstChild "status" with
    | some n => Except.ok n
    | none => Except.error "ParseError: missing status"
  let tags := after_status_hook (statusDict stNode)
  let npNode ← match item.firstChild "numplays" with
    | some n => Except.ok n
    | none => Except.error "ParseError: missing numplays"
  let numplays ← match pyInt ((npNode.text).getD "") with
    | some n => Except.ok n
    | none => Except.error "ParseError: invalid numplays"
  Except.ok ⟨id, name, tags, numplays⟩

/-- `_collection_to_games` (bgg_client.py lines 89-114): the root
`items` dictionary with an array over the `item` elements
(`required=False`, so no items means an empty list). -/
def collection_to_games (doc : XmlNode) : Except String (List OwnedGame) :=
  if doc.tag = "items" then
    (doc.children.filter (fun c => c.tag == "item")).mapM parseItem
  else
    Except.error "ParseError: root tag mismatch"

/-- A complete sample collection item used as a concrete instance. -/
def sampleItem : XmlNode :=
  .elem "item" [("objectid", "42")] none
    [.elem "name" [] (some "Carcassonne") [],
     .elem "status" [("fortrade", "0"), ("own", "1"), ("preordered", "0"),
       ("prevowned", "0"), ("want", "0"), ("wanttobuy", "0"),
       ("wanttoplay", "0"), ("wishlist", "0")] none [],
     .elem "numplays" [] (some "7") []]

/-- A key present in the list representation of a python dict. -/
theorem dictGet_isSome_of_key_mem (m : List (String × Int)) (k : String)
    (h : k ∈ m.map Prod.fst) : (dictGet m k).isSome := by
  rcases List.mem_map.mp h with ⟨p, hp, hk⟩
  have hs : (m.reverse.find? (fun q => q.1 == k)).isSome :=
    List.find?_isSome.mpr ⟨p, List.mem_reverse.mpr hp, by simp [hk]⟩
  rcases Option.isSome_iff_exists.mp hs with ⟨q, hq⟩
  simp [dictGet, hq]

theorem voteMap_eq_nil_iff (results : List VoteResult) :
    voteMap results = [] ↔ results = [] := by
  simp [voteMap]

/-- C1: whenever the collected vote map yields counts for all three of
best, recommended and not_recommended, `numplayers_to_result` returns
not_recommended when best + recommended <= not_recommended, otherwise
best when best > 10 and best > recommended, otherwise recommended.
The four concrete instances of the claim are in the witness. -/
theorem c1_vote_classification (results : List VoteResult)
    (best recommended notRec : Int)
    (hb : dictGet (collectedVotes results) "best" = some best)
    (hr : dictGet (collectedVotes results) "recommended" = some recommended)
    (hn : dictGet (collectedVotes results) "not_recommended" = some notRec) :
    numplayers_to_result results =
      some (if best + recommended ≤ notRec then "not_recommended"
            else if best > 10 ∧ best > recommended then "best"
            else "recommended") := by
  simp only [numplayers_to_result, hb, hr, hn, Option.bind_eq_bind,
    Option.some_bind, not_lt]
  by_cases h1 : best + recommended ≤ notRec
  · simp [h1]
  · by_cases h2 : best > 10 ∧ best > recommended
    · simp [h1, h2]
    · simp [h1, h2]

/-- Witness for C1 at the four concrete vote triples of the claim:
(15,2,1) → best, (3,4,1) → recommended, (0,1,5) → not_recommended,
(0,0,0) → not_recommended. -/
theorem c1_vote_classification_witness :
    numplayers_to_result
        [⟨"Best", 15⟩, ⟨"Recommended", 2⟩, ⟨"Not Recommended", 1⟩] = some "best" ∧
    numplayers_to_result
        [⟨"Best", 3⟩, ⟨"Recommended", 4⟩, ⟨"Not Recommended", 1⟩] = some "recommended" ∧
    numplayers_to_result
        [⟨"Best", 0⟩, ⟨"Recommended", 1⟩, ⟨"Not Recommended", 5⟩] = some "not_recommended" ∧
    numplayers_to_result
        [⟨"Best", 0⟩, ⟨"Recommended", 0⟩, ⟨"Not Recommended", 0⟩] = some "not_recommended" := by
  refine ⟨?_, ?_, ?_, ?_⟩
  · rw [c1_vote_classification _ 15 2 1 (by decide) (by decide) (by decide)]; decide
  · rw [c1_vote_classification _ 3 4 1 (by decide) (by decide) (by decide)]; decide
  · rw [c1_vote_classification _ 0 1 5 (by decide) (by decide) (by decide)]; decide
  · rw [c1_vote_classification _ 0 0 0 (by decide) (by decide) (by decide)]; decide

/-- Rewriting `suggested_numplayers` through an equation for its filter
step. -/
theorem suggested_numplayers_of_filter_eq (groups : List PlayersGroup)
    (s : List PlayersGroup)
    (hs : groups.filter (fun p => p.result ≠ "not_recommended") = s) :
    suggested_numplayers groups =
      (promoteSoleSurvivor s).map (fun p => (p.numplayers, p.result)) := by
  simp only [suggested_numplayers]
  rw [hs]

/-- C2: `suggested_numplayers` drops every group classified
not_recommended; if exactly one group survives the filter its
classification becomes best regardless of the computed one; the output
is the (count, classification) pairs of the survivors in original order
(in particular the counts are the survivors' counts in order). -/
theorem c2_post_processing (groups : List PlayersGroup) :
    ((groups.filter (fun p => p.result ≠ "not_recommended")).length = 1 →
      suggested_numplayers groups =
        (groups.filter (fun p => p.result ≠ "not_recommended")).map
          (fun p => (p.numplayers, "best"))) ∧
    ((groups.filter (fun p => p.result ≠ "not_recommended")).length ≠ 1 →
      suggested_numplayers groups =
        (groups.filter (fun p => p.result ≠ "not_recommended")).map
          (fun p => (p.numplayers, p.result))) ∧
    (suggested_numplayers groups).map Prod.fst =
      (groups.filter (fun p => p.result ≠ "not_recommended")).map
        (fun p => p.numplayers) := by
  rcases hs : groups.filter (fun p => p.result ≠ "not_recommended") with _ | ⟨p, _ | ⟨q, t⟩⟩ <;>
    rw [suggested_numplayers_of_filter_eq groups _ hs, hs]
  · exact ⟨fun h => by simp at h, fun _ => by simp [promoteSoleSurvivor],
      by simp [promoteSoleSurvivor]⟩
  · exact ⟨fun _ => by simp [promoteSoleSurvivor], fun h => absurd rfl h,
      by simp [promoteSoleSurvivor]⟩
  · exact ⟨fun h => absurd h (by simp), fun _ => by simp [promoteSoleSurvivor],
      by simp [promoteSoleSurvivor]⟩

/-- Witness for C2: the spec's single-survivor override example — two
groups, only one survives filtering, and its classification becomes
best even though the vote rule had produced recommended. -/
theorem c2_post_processing_witness :
    suggested_numplayers [⟨"2", "recommended"⟩, ⟨"3", "not_recommended"⟩] =
      [("2", "best")] := by
  rw [(c2_post_processing [⟨"2", "recommended"⟩, ⟨"3", "not_recommended"⟩]).1 (by decide)]
  decide

/-- C4: the derived suggested-player-count list never contains an entry
classified not_recommended (a sole surviving entry is promoted to best,
which is consistent with this invariant). -/
theorem c4_no_not_recommended_entry (groups : List PlayersGroup) :
    ∀ q ∈ suggested_numplayers groups, q.2 ≠ "not_recommended" := by
  intro q hq
  have hfilter : ∀ p, p ∈ groups.filter (fun p => p.result ≠ "not_recommended") →
      p.result ≠ "not_recommended" := by
    intro p hp
    simpa using (List.mem_filter.mp hp).2
  rcases hs : groups.filter (fun p => p.result ≠ "not_recommended") with _ | ⟨p, _ | ⟨r, t⟩⟩ <;>
    rw [suggested_numplayers_of_filter_eq groups _ hs] at hq
  · simp [promoteSoleSurvivor] at hq
  · simp [promoteSoleSurvivor] at hq
    simp [hq]
  · rcases List.mem_map.mp hq with ⟨a, ha, rfl⟩
    exact hfilter a (hs ▸ ha)

/-- Witness for C4 at a concrete group list with two survivors. -/
theorem c4_no_not_recommended_entry_witness :
    ("2", "recommended").2 ≠ "not_recommended" :=
  c4_no_not_recommended_entry
    [⟨"2", "recommended"⟩, ⟨"4", "recommended"⟩, ⟨"5", "not_recommended"⟩]
    ("2", "recommended") (by decide)

/-- C10: when every group is classified not_recommended, the
post-processing returns the empty list — discarded groups are never
promoted. -/
theorem c10_all_not_recommended_empty (groups : List PlayersGroup)
    (h : ∀ p ∈ groups, p.result = "not_recommended") :
    suggested_numplayers groups = [] := by
  have hfil : groups.filter (fun p => p.result ≠ "not_recommended") = [] := by
    rw [List.filter_eq_nil_iff]
    intro p hp
    simp [h p hp]
  rw [suggested_numplayers_of_filter_eq groups [] hfil]
  rfl

/-- Witness for C10: a sole original not_recommended group yields []. -/
theorem c10_all_not_recommended_empty_witness :
    suggested_numplayers [⟨"1", "not_recommended"⟩] = [] :=
  c10_all_not_recommended_empty [⟨"1", "not_recommended"⟩] (by decide)

/-- C3 counterexample: a group specifying only the category best (votes
`[("Best", 5)]`) does NOT classify without error — the non-empty vote
map is not completed with defaults, so reading the recommended key is a
`KeyError` (modelled as `none`), contradicting the claim that
unspecified categories default to 0 votes. -/
theorem c3_counterexample : numplayers_to_result [⟨"Best", 5⟩] = none := by decide

/-- C3 amended: the vote map is keyed by the value lowercased with
spaces replaced by underscores (every result's normalized value is a
key of the map); the three categories default to 0 votes only when the
group has NO vote results at all (then it classifies as
not_recommended); when the group is non-empty but lacks one of the
three category keys, classification fails with a `KeyError` (`none`). -/
theorem c3_vote_map_keys :
    (∀ results : List VoteResult, ∀ r ∈ results,
      (dictGet (voteMap results) (normalizeValue r.value)).isSome) ∧
    numplayers_to_result [] = some "not_recommended" ∧
    (∀ results : List VoteResult, results ≠ [] →
      (dictGet (voteMap results) "best" = none ∨
       dictGet (voteMap results) "recommended" = none ∨
       dictGet (voteMap results) "not_recommended" = none) →
      numplayers_to_result results = none) ∧
    numplayers_to_result
      [⟨"Best", 12⟩, ⟨"Recommended", 2⟩, ⟨"Not Recommended", 1⟩] = some "best" := by
  refine ⟨?_, by decide, ?_, by decide⟩
  · intro results r hr
    refine dictGet_isSome_of_key_mem _ _ ?_
    simp only [voteMap, List.map_map]
    exact List.mem_map.mpr ⟨r, hr, rfl⟩
  · intro results hne hnone
    have hcv : collectedVotes results = voteMap results := by
      rcases results with _ | ⟨r, rs⟩
      · exact absurd rfl hne
      · simp [collectedVotes, voteMap]
    simp only [numplayers_to_result, hcv]
    rcases h1 : dictGet (voteMap results) "best" with _ | b
    · simp
    rcases h2 : dictGet (voteMap results) "recommended" with _ | r
    · simp [h1]
    rcases h3 : dictGet (voteMap results) "not_recommended" with _ | n
    · simp [h1, h2]
    · rcases hnone with h | h | h
      · rw [h1] at h; cases h
      · rw [h2] at h; cases h
      · rw [h3] at h; cases h

/-- Witness for C3 (amended) at the concrete group `[("Best", 5)]`:
its normalized value is a key of the map, yet classification yields a
`KeyError` because the other two categories are absent. -/
theorem c3_vote_map_keys_witness :
    numplayers_to_result [⟨"Best", 5⟩] = none ∧
    (dictGet (voteMap [⟨"Best", 5⟩]) (normalizeValue "Best")).isSome := by
  exact ⟨c3_vote_map_keys.2.2.1 [⟨"Best", 5⟩] (by decide)
           (Or.inr (Or.inl (by decide))),
         c3_vote_map_keys.1 [⟨"Best", 5⟩] ⟨"Best", 5⟩ (by decide)⟩

/-- A 202 attempt below the retry cap recurses with `tries + 1`. -/
theorem makeRequest_step202 (responses : Nat → Attempt) (url text : String)
    (tree : XmlNode) (tries : Nat) (hlt : tries < 10)
    (h : responses tries = .resp 202 url text tree) :
    makeRequest responses tries =
      ((makeRequest responses (tries + 1)).1,
       (makeRequest responses (tries + 1)).2 + 1) := by
  rw [makeRequest, h]
  dsimp only
  rw [if_pos (by decide), dif_pos ⟨rfl, hlt⟩]

/-- A 202 attempt at the retry cap raises the status exception. -/
theorem makeRequest_cap202 (responses : Nat → Attempt) (url text : String)
    (tree : XmlNode) (tries : Nat) (hge : ¬ tries < 10)
    (h : responses tries = .resp 202 url text tree) :
    makeRequest responses tries = (.error ⟨statusErrorMessage 202 url⟩, 1) := by
  rw [makeRequest, h]
  dsimp only
  have h1 : ¬((202 : Nat) = 202 ∧ tries < 10) := by omega
  have h2 : ¬((202 : Nat) = 540 ∧ tries < 3) := by omega
  rw [if_pos (by decide), dif_neg h1, dif_neg h2]

/-- C5: when every attempt returns HTTP 202, `_make_request` retries
while the attempt counter is below 10 and raises the status-code
`BGGException` (the spec's HTTPError) otherwise; starting from tries=0
this raises after exactly 10 retries, i.e. 11 total attempts. -/
theorem c5_retry_202_cap (responses : Nat → Attempt) (url text : String)
    (tree : XmlNode) (h : ∀ i, responses i = .resp 202 url text tree) :
    (∀ tries, tries < 10 → makeRequest responses tries =
        ((makeRequest responses (tries + 1)).1,
         (makeRequest responses (tries + 1)).2 + 1)) ∧
    makeRequest responses 10 = (.error ⟨statusErrorMessage 202 url⟩, 1) ∧
    makeRequest responses 0 = (.error ⟨statusErrorMessage 202 url⟩, 11) := by
  refine ⟨fun tries hlt => makeRequest_step202 responses url text tree tries hlt (h tries),
    makeRequest_cap202 responses url text tree 10 (by omega) (h 10), ?_⟩
  have key : ∀ m tries, 10 - tries = m →
      makeRequest responses tries = (.error ⟨statusErrorMessage 202 url⟩, m + 1) := by
    intro m
    induction m with
    | zero =>
      intro tries ht
      exact makeRequest_cap202 responses url text tree tries (by omega) (h tries)
    | succ k ih =>
      intro tries ht
      rw [makeRequest_step202 responses url text tree tries (by omega) (h tries),
        ih (tries + 1) (by omega)]
  exact key 10 0 rfl

/-- Witness for C5 at a constant all-202 response stream. -/
theorem c5_retry_202_cap_witness :
    makeRequest (fun _ => .resp 202 "U" "" (.elem "items" [] none [])) 0 =
      (.error ⟨statusErrorMessage 202 "U"⟩, 11) :=
  (c5_retry_202_cap (fun _ => .resp 202 "U" "" (.elem "items" [] none []))
    "U" "" (.elem "items" [] none []) (fun _ => rfl)).2.2

theorem infix_append_of_infix_right {α : Type} {b c : List α} (a : List α)
    (h : b <:+: c) : b <:+: a ++ c := by
  rcases h with ⟨u, v, huv⟩
  exact ⟨a ++ u, v, by rw [← huv]; simp [List.append_assoc]⟩

theorem infix_append_of_infix_left {α : Type} {b c : List α} (a : List α)
    (h : b <:+: c) : b <:+: c ++ a := by
  rcases h with ⟨u, v, huv⟩
  exact ⟨u, v ++ a, by rw [← huv]; simp [List.append_assoc]⟩

/-- Every member of a list is contained in its ", "-join. -/
theorem mem_infix_pyJoinComma (l : List String) (x : String) (hx : x ∈ l) :
    x.data <:+: (pyJoinComma l).data := by
  induction l with
  | nil => cases hx
  | cons y ys ih =>
    rcases List.mem_cons.mp hx with rfl | hmem
    · cases ys with
      | nil => exact List.infix_refl _
      | cons z zs =>
        refine ⟨[], (", " ++ pyJoinComma (z :: zs)).data, ?_⟩
        simp [pyJoinComma, String.data_append]
    · cases ys with
      | nil => cases hmem
      | cons z zs =>
        have h1 := ih hmem
        have h2 : x.data <:+: (", " ++ pyJoinComma (z :: zs)).data := by
          rw [String.data_append]
          exact infix_append_of_infix_right _ h1
        have h3 : x.data <:+: (y ++ (", " ++ pyJoinComma (z :: zs))).data := by
          rw [String.data_append]
          exact infix_append_of_infix_right _ h2
        simpa [pyJoinComma, String.append_assoc] using h3

/-- The text of every grandchild of the error root is contained in the
message `_make_request` builds for the error document. -/
theorem mem_errorTexts_infix_message (url : String) (tree : XmlNode)
    (s : String) (hs : some s ∈ errorTexts tree) :
    s.data <:+: (apiErrorMessage url tree).data := by
  have h0 : s.data <:+: (pyRepr (some s)).data := by
    refine ⟨"\x27".data, "\x27".data, ?_⟩
    simp [pyRepr, String.data_append]
  have h1 : (pyRepr (some s)).data <:+: (pyJoinComma ((errorTexts tree).map pyRepr)).data :=
    mem_infix_pyJoinComma _ _ (List.mem_map.mpr ⟨some s, hs, rfl⟩)
  have h2 : s.data <:+: (pyStrList (errorTexts tree)).data := by
    have := h0.trans h1
    simp only [pyStrList, String.data_append]
    exact infix_append_of_infix_left _ (infix_append_of_infix_right _ this)
  have hmsg : apiErrorMessage url tree =
      ("BGG returned errors while requesting " ++ url ++ " - ") ++
        pyStrList (errorTexts tree) := by
    simp [apiErrorMessage, String.append_assoc]
  rw [hmsg, String.data_append]
  exact infix_append_of_infix_right _ h2

/-- A 200 response whose parsed root tag is "errors" makes
`_make_request` raise the API-error `BGGException` at once. -/
theorem makeRequest_apiError (responses : Nat → Attempt) (tries : Nat)
    (url text : String) (tree : XmlNode)
    (h : responses tries = .resp 200 url text tree)
    (herr : tree.tag = "errors") :
    makeRequest responses tries = (.error ⟨apiErrorMessage url tree⟩, 1) := by
  rw [makeRequest, h]
  dsimp only
  rw [if_neg (by decide), if_pos herr]

/-- C8 counterexample: the error document `<errors><e>boom</e></errors>`
has leaf text "boom", the executor raises the API-error exception for
it, yet the message does NOT contain "boom" — the code gathers only the
`.text` of the root's grandchildren, and `e` is a child, not a
grandchild. -/
theorem c8_counterexample :
    "boom" ∈ (XmlNode.elem "errors" [] none
        [.elem "e" [] (some "boom") []]).leafTexts ∧
    makeRequest (fun _ => .resp 200 "U" "T"
        (.elem "errors" [] none [.elem "e" [] (some "boom") []])) 0 =
      (.error ⟨apiErrorMessage "U"
        (.elem "errors" [] none [.elem "e" [] (some "boom") []])⟩, 1) ∧
    ¬ ("boom".data <:+: (apiErrorMessage "U"
        (.elem "errors" [] none [.elem "e" [] (some "boom") []])).data) := by
  refine ⟨by simp [XmlNode.leafTexts, leafTextsList], ?_, by decide⟩
  exact makeRequest_apiError _ 0 "U" "T" _ rfl rfl

/-- C8 amended: a well-formed 200 response whose root tag is "errors"
makes the executor raise `BGGException` (the spec's APIError) instead
of returning the body, and the message contains the text of every
grandchild element of the root (not of every leaf text node). -/
theorem c8_api_error_message (responses : Nat → Attempt) (tries : Nat)
    (url text : String) (tree : XmlNode)
    (h : responses tries = .resp 200 url text tree)
    (herr : tree.tag = "errors") :
    makeRequest responses tries = (.error ⟨apiErrorMessage url tree⟩, 1) ∧
    ∀ s : String, some s ∈ errorTexts tree →
      s.data <:+: (apiErrorMessage url tree).data :=
  ⟨makeRequest_apiError responses tries url text tree h herr,
   fun s hs => mem_errorTexts_infix_message url tree s hs⟩

/-- Witness for C8 (amended) on `<errors><error><message>bad
id</message></error></errors>`: the exception is raised and the
grandchild text "bad id" is contained in its message. -/
theorem c8_api_error_message_witness :
    makeRequest (fun _ => .resp 200 "U" "T"
        (.elem "errors" [] none
          [.elem "error" [] none [.elem "message" [] (some "bad id") []]])) 0 =
      (.error ⟨apiErrorMessage "U"
        (.elem "errors" [] none
          [.elem "error" [] none [.elem "message" [] (some "bad id") []]])⟩, 1) ∧
    "bad id".data <:+: (apiErrorMessage "U"
        (.elem "errors" [] none
          [.elem "error" [] none [.elem "message" [] (some "bad id") []]])).data := by
  have h := c8_api_error_message (fun _ => .resp 200 "U" "T"
      (.elem "errors" [] none
        [.elem "error" [] none [.elem "message" [] (some "bad id") []]])) 0
      "U" "T" _ rfl rfl
  exact ⟨h.1, h.2 "bad id" (by decide)⟩

/-- If no attempt can succeed, `_make_request` always ends in a raised
`BGGException` — no failure is silently swallowed. -/
theorem makeRequest_error_of_all_fail (m : Nat) :
    ∀ (responses : Nat → Attempt) (tries : Nat), 10 - tries ≤ m →
      (∀ i, attemptOk (responses i) = false) →
      ∃ e : BGGException, (makeRequest responses tries).1 = Except.error e := by
  induction m with
  | zero =>
    intro responses tries hm hfail
    cases hr : responses tries with
    | connError =>
      rw [makeRequest, hr]
      dsimp only
      rw [dif_neg (by omega)]
      exact ⟨_, rfl⟩
    | resp status url text tree =>
      have hko := hfail tries
      rw [hr] at hko
      rw [makeRequest, hr]
      dsimp only
      by_cases hst : status = 200
      · subst hst
        rw [if_neg (by decide)]
        have htag : tree.tag = "errors" := by
          simpa [attemptOk] using hko
        rw [if_pos htag]
        exact ⟨_, rfl⟩
      · rw [if_pos hst, dif_neg (by omega), dif_neg (by omega)]
        exact ⟨_, rfl⟩
  | succ k ih =>
    intro responses tries hm hfail
    cases hr : responses tries with
    | connError =>
      rw [makeRequest, hr]
      dsimp only
      by_cases h3 : tries < 3
      · rw [dif_pos h3]
        obtain ⟨e, he⟩ := ih responses (tries + 1) (by omega) hfail
        exact ⟨e, he⟩
      · rw [dif_neg h3]
        exact ⟨_, rfl⟩
    | resp status url text tree =>
      have hko := hfail tries
      rw [hr] at hko
      rw [makeRequest, hr]
      dsimp only
      by_cases hst : status = 200
      · subst hst
        rw [if_neg (by decide)]
        have htag : tree.tag = "errors" := by
          simpa [attemptOk] using hko
        rw [if_pos htag]
        exact ⟨_, rfl⟩
      · rw [if_pos hst]
        by_cases h202 : status = 202 ∧ tries < 10
        · rw [dif_pos h202]
          obtain ⟨e, he⟩ := ih responses (tries + 1) (by omega) hfail
          exact ⟨e, he⟩
        · rw [dif_neg h202]
          by_cases h540 : status = 540 ∧ tries < 3
          · rw [dif_pos h540]
            obtain ⟨e, he⟩ := ih responses (tries + 1) (by omega) hfail
            exact ⟨e, he⟩
          · rw [dif_neg h540]
            exact ⟨_, rfl⟩

/-- C9 counterexample: the transport failure and the HTTP-status
failure are two different failure outcomes raised with the SAME
exception class `BGGException`, so the code does not surface four
distinct, inspectable failure kinds. -/
theorem c9_counterexample :
    raisedExceptionClass .transportError = raisedExceptionClass .httpError ∧
    FailureKind.transportError ≠ FailureKind.httpError := by
  decide

/-- C9 amended: no failure is silently swallowed — a run whose attempts
never succeed always raises an exception to the caller — but transport,
HTTP-status and API-error failures all share the single exception class
`BGGException`; only the XML-library parse failure has a different
class. -/
theorem c9_failure_surfacing :
    (∀ (responses : Nat → Attempt) (tries : Nat),
      (∀ i, attemptOk (responses i) = false) →
      ∃ e : BGGException, (makeRequest responses tries).1 = Except.error e) ∧
    raisedExceptionClass .transportError = "BGGException" ∧
    raisedExceptionClass .httpError = "BGGException" ∧
    raisedExceptionClass .apiError = "BGGException" ∧
    raisedExceptionClass .parseError ≠ "BGGException" := by
  refine ⟨?_, rfl, rfl, rfl, by decide⟩
  intro responses tries hfail
  exact makeRequest_error_of_all_fail (10 - tries) responses tries (le_refl _) hfail

/-- Witness for C9 (amended): a run made of connection failures ends in
a raised exception. -/
theorem c9_failure_surfacing_witness :
    ∃ e : BGGException,
      (makeRequest (fun _ => Attempt.connError) 0).1 = Except.error e :=
  c9_failure_surfacing.1 (fun _ => Attempt.connError) 0 (fun _ => rfl)

theorem game_list_foldl {γ : Type} (fetchParse : List Int → List γ) :
    ∀ (L : List (List Int)) (acc : List γ) (k : Nat),
      L.foldl (fun acc c => (acc.1 ++ fetchParse c, acc.2 + 1)) (acc, k) =
        (acc ++ (L.map fetchParse).flatten, k + L.length) := by
  intro L
  induction L with
  | nil => intro acc k; simp
  | cons c L ih =>
    intro acc k
    rw [List.foldl_cons, ih]
    simp [List.append_assoc]
    omega

theorem chunks100_flatten {α : Type} (l : List α) :
    (chunks100 l).flatten = l := by
  induction l using chunks100.induct with
  | case1 => simp [chunks100]
  | case2 x xs ih =>
    rw [chunks100]
    simp only [List.flatten_cons, ih, List.take_append_drop]

theorem chunks100_length_le {α : Type} (l : List α) :
    ∀ c ∈ chunks100 l, c.length ≤ 100 := by
  induction l using chunks100.induct with
  | case1 => intro c hc; simp [chunks100] at hc
  | case2 x xs ih =>
    intro c hc
    rw [chunks100] at hc
    rcases List.mem_cons.mp hc with rfl | hmem
    · simp
    · exact ih c hmem

theorem chunks100_length {α : Type} (l : List α) :
    (chunks100 l).length = (l.length + 99) / 100 := by
  induction l using chunks100.induct with
  | case1 => simp [chunks100]
  | case2 x xs ih =>
    rw [chunks100]
    simp only [List.length_cons, ih, List.length_drop]
    omega

/-- C6: the game-list fetch partitions the ids into consecutive chunks
of at most 100 preserving input order (their concatenation is the input
list), issues exactly ceil(N/100) batch requests, returns the per-chunk
results concatenated (so a per-id fetch yields output order equal to
input order), and for the empty list performs zero network calls and
returns []. -/
theorem c6_batching {γ : Type} (fetchParse : List Int → List γ)
    (g : Int → γ) (game_ids : List Int) :
    (chunks100 game_ids).flatten = game_ids ∧
    (∀ c ∈ chunks100 game_ids, c.length ≤ 100) ∧
    (game_list fetchParse game_ids).2 = (game_ids.length + 99) / 100 ∧
    (game_list (fun c => c.map g) game_ids).1 = game_ids.map g ∧
    game_list fetchParse ([] : List Int) = ([], 0) := by
  refine ⟨chunks100_flatten game_ids, chunks100_length_le game_ids, ?_, ?_, rfl⟩
  · rcases hids : game_ids with _ | ⟨i, is⟩
    · rfl
    · rw [game_list, if_neg (by simp), game_list_foldl]
      simp [chunks100_length]
  · rcases hids : game_ids with _ | ⟨i, is⟩
    · rfl
    · rw [game_list, if_neg (by simp), game_list_foldl]
      simp only [List.nil_append]
      rw [← List.map_flatten, chunks100_flatten]

/-- Witness for C6 at the concrete id list [1, 2, 3] with an identity
per-id fetch. -/
theorem c6_batching_witness :
    (game_list (fun c => c.map (fun i : Int => i)) [(1 : Int), 2, 3]).1 =
      [1, 2, 3] ∧
    ([(1 : Int), 2, 3]).length ≤ 100 := by
  have h := c6_batching (fun c : List Int => c.map (fun i => i))
    (fun i : Int => i) [1, 2, 3]
  refine ⟨by simpa using h.2.2.2.1, h.2.1 [1, 2, 3] ?_⟩
  rw [chunks100]
  simp

/-- The status hook restricted to a status element's dict is a filter
of the fixed attribute name list. -/
theorem after_status_hook_eq_filter (st : XmlNode) :
    after_status_hook (statusDict st) =
      statusAttrNames.filter (fun k => (st.attr k).getD "" == "1") := by
  simp only [after_status_hook, statusDict]
  generalize statusAttrNames = names
  induction names with
  | nil => rfl
  | cons k ks ih =>
    simp only [List.map_cons, List.filter_cons]
    by_cases hk : ((st.attr k).getD "" == "1") = true
    · simp only [hk, if_true, List.map_cons, ih]
    · simp only [Bool.not_eq_true] at hk
      simp [hk, ih]

/-- C7: a collection document with no item elements extracts to the
empty list rather than an error; the tags of an item are exactly the
names of the fixed status attribute set whose value is "1" (in
particular own="1", want="0" gives exactly the tag "own"); and a full
sample item extracts accordingly. -/
theorem c7_collection_extraction :
    (∀ doc : XmlNode, doc.tag = "items" →
      doc.children.filter (fun c => c.tag == "item") = [] →
      collection_to_games doc = Except.ok []) ∧
    (∀ st : XmlNode, ∀ t : String,
      t ∈ after_status_hook (statusDict st) ↔
        t ∈ statusAttrNames ∧ st.attr t = some "1") ∧
    after_status_hook (statusDict
      (.elem "status" [("own", "1"), ("want", "0")] none [])) = ["own"] ∧
    collection_to_games (.elem "items" [] none [sampleItem]) =
      Except.ok [⟨42, "Carcassonne", ["own"], 7⟩] := by
  refine ⟨?_, ?_, rfl, rfl⟩
  · intro doc h1 h2
    rw [collection_to_games, if_pos h1, h2]
    rfl
  · intro st t
    rw [after_status_hook_eq_filter, List.mem_filter]
    constructor
    · rintro ⟨hmem, hv⟩
      refine ⟨hmem, ?_⟩
      cases hat : st.attr t with
      | none => simp [hat] at hv
      | some v =>
        simp only [hat, Option.getD_some, beq_iff_eq] at hv
        rw [hv]
    · rintro ⟨hmem, hat⟩
      exact ⟨hmem, by simp [hat]⟩

/-- Witness for C7: the empty document and the own="1"/want="0" status
element. -/
theorem c7_collection_extraction_witness :
    collection_to_games (.elem "items" [] none []) = Except.ok [] ∧
    "own" ∈ after_status_hook (statusDict
      (.elem "status" [("own", "1"), ("want", "0")] none [])) := by
  refine ⟨c7_collection_extraction.1 (.elem "items" [] none []) rfl rfl, ?_⟩
  exact (c7_collection_extraction.2.1
    (.elem "status" [("own", "1"), ("want", "0")] none []) "own").mpr
    ⟨by decide, by decide⟩

end BggClient
